import Mathlib

/-!
Verification of the custom-agent workflow execution engine
(`tests/scaffolding/test-custom-agent-output/custom-agent/src` and the
use-case harness `src/scaffold/python/generators/templates/base/utils`).

The Python code is shallowly embedded: Python values that the code only
inspects structurally are represented by `PyValue`, floats that only
undergo exact arithmetic (the retry delays) by `ℚ`, dictionaries by
association lists or update functions, raised exceptions by explicit
error values, and the pluggable compute / traversal calls inside the
retry loops by an explicit outcome function indexed by the attempt
number.
-/

set_option autoImplicit false

universe u

/-- A Python runtime value, as far as the engine inspects it: `None`,
strings, lists, dicts with string keys, and every other value (numbers,
objects, …) collapsed to an opaque payload `other a`. -/
inductive PyValue (α : Type u) : Type u where
  | none : PyValue α
  | str (s : String) : PyValue α
  | list (xs : List (PyValue α)) : PyValue α
  | dict (fields : List (String × PyValue α)) : PyValue α
  | other (a : α) : PyValue α

/-- A LangChain message: `HumanMessage` or `AIMessage`, carrying its
`content` string. -/
inductive Message : Type where
  | human (content : String) : Message
  | ai (content : String) : Message
deriving DecidableEq

/-- The `AgentState` TypedDict of `src/state/state.py`: input, message
history, context, per-stage results, current stage, error and metadata.
The `results`, `context` and `metadata` dicts are represented as maps
from keys to optional values. -/
structure AgentState (α : Type u) : Type u where
  input : PyValue α
  messages : List Message
  context : String → Option (PyValue α)
  results : String → Option (PyValue α)
  current_stage : Option String
  error : Option String
  metadata : String → Option (PyValue α)

/-- `update_state(state, **updates)` of `src/state/state.py` rebuilds the
state taking each field from `updates` when present and from the current
state otherwise.  The four concrete state operations below each pass a
single field, so they are embedded as single-field structure updates. -/
def set_stage_result {α : Type u} (state : AgentState α) (stage : String)
    (result : PyValue α) : AgentState α :=
  { state with results := fun s => if s = stage then some result else state.results s }

/-- `add_message(state, message)`: `updated_messages = state["messages"] + [message]`,
then `update_state(state, messages=updated_messages)`. -/
def add_message {α : Type u} (state : AgentState α) (message : Message) : AgentState α :=
  { state with messages := state.messages ++ [message] }

/-- `set_error(state, error)`: `update_state(state, error=error)`. -/
def set_error {α : Type u} (state : AgentState α) (error : String) : AgentState α :=
  { state with error := some error }

/-- `clear_error(state)`: `update_state(state, error=None)`. -/
def clear_error {α : Type u} (state : AgentState α) : AgentState α :=
  { state with error := none }

/-- The inner `{"thread_id": ...}` dict of a thread configuration. -/
structure ThreadConfigurable : Type where
  thread_id : String
deriving DecidableEq

/-- The `{"configurable": {"thread_id": ...}}` dict returned by the
checkpointer helpers of `src/checkpoints/checkpointer.py`. -/
structure ThreadConfig : Type where
  configurable : ThreadConfigurable
deriving DecidableEq

/-- `get_thread_config(user_id, session_id=None)`: builds
`"user_<user_id>"` and appends `"_session_<session_id>"` when
`session_id` is truthy (`if session_id:` in Python is false both for
`None` and for the empty string). -/
def get_thread_config (user_id : String) (session_id : Option String) : ThreadConfig :=
  let tid := "user_" ++ user_id
  let tid := match session_id with
    | some s => if s = "" then tid else tid ++ "_session_" ++ s
    | Option.none => tid
  ⟨⟨tid⟩⟩

/-- `get_versioned_thread_config(user_id, version="v1.0.0", session_id=None)`:
same base id as `get_thread_config`, then unconditionally appends
`"_v<version>"`. -/
def get_versioned_thread_config (user_id : String) (version : String)
    (session_id : Option String) : ThreadConfig :=
  let base := "user_" ++ user_id
  let base := match session_id with
    | some s => if s = "" then base else base ++ "_session_" ++ s
    | Option.none => base
  ⟨⟨base ++ "_v" ++ version⟩⟩

/-- What one iteration of a retry loop's `try` body does, abstracting
the pluggable call it wraps (the node's compute logic under
`asyncio.wait_for`, or the graph traversal) together with its
input/output validation: it returns a value, raises a validation error
(`ValueError`/`TypeError`), raises `asyncio.TimeoutError`, or raises any
other exception. -/
inductive Outcome (α : Type u) : Type u where
  | ok (v : α) : Outcome α
  | validationError : Outcome α
  | timeout : Outcome α
  | otherError : Outcome α

/-- How a retry loop ends when no attempt returned a value:
a terminal validation error, timeout exhaustion, exhaustion by another
runtime error, or the unreachable fall-through after the `for` loop. -/
inductive FailKind : Type where
  | validation : FailKind
  | timeoutExhausted : FailKind
  | exhausted : FailKind
  | unexpected : FailKind
deriving DecidableEq

/-- The observable trace of one retry loop execution: how many attempts
ran, the backoff delays slept between attempts (in seconds, in order),
and the final value or terminal error. -/
structure RunTrace (α : Type u) : Type u where
  attempts : ℕ
  delays : List ℚ
  result : Except FailKind α

/-- One step of the shared retry loop of `Llm_3LLMNode.run`
(`src/nodes/llm/llm_3/processor.py`) and `CustomAgentGraph.execute`
(`src/graph/main.py`): at attempt `a` (0-based) with `fuel` loop
iterations left,
  * a returned value ends the loop;
  * `ValueError`/`TypeError` is re-raised immediately as the terminal
    wrapper error and is never retried;
  * `asyncio.TimeoutError` on the last attempt (`a = mr - 1`) is
    terminal, otherwise the loop sleeps `base * (a + 1)` and retries;
  * any other exception on the last attempt is terminal, otherwise the
    loop sleeps `base * 2 ^ a` and retries;
  * the fall-through after the loop raises the "Unexpected error"
    wrapper. -/
def retryAux {α : Type u} (base : ℚ) (mr : ℕ) (outcome : ℕ → Outcome α) :
    ℕ → ℕ → RunTrace α
  | _, 0 => ⟨0, [], Except.error FailKind.unexpected⟩
  | a, fuel + 1 =>
    match outcome a with
    | Outcome.ok v => ⟨1, [], Except.ok v⟩
    | Outcome.validationError => ⟨1, [], Except.error FailKind.validation⟩
    | Outcome.timeout =>
      if a = mr - 1 then ⟨1, [], Except.error FailKind.timeoutExhausted⟩
      else
        let rest := retryAux base mr outcome (a + 1) fuel
        ⟨rest.attempts + 1, base * ((a : ℚ) + 1) :: rest.delays, rest.result⟩
    | Outcome.otherError =>
      if a = mr - 1 then ⟨1, [], Except.error FailKind.exhausted⟩
      else
        let rest := retryAux base mr outcome (a + 1) fuel
        ⟨rest.attempts + 1, base * 2 ^ a :: rest.delays, rest.result⟩

/-- The full retry loop `for attempt in range(max_retries)` with
`max_retries = 3`, as hard-coded both in the node-level `run` methods
and in the graph-level `execute`. -/
def retryRun {α : Type u} (base : ℚ) (outcome : ℕ → Outcome α) : RunTrace α :=
  retryAux base 3 outcome 0 3

/-- `Llm_3LLMNode.run`: `max_retries = 3`, `retry_delay = 2.0`; the
attempt body (input validation, `_execute_llm_3_llm_logic` under a 60 s
deadline, output validation) is abstracted by `outcome`. -/
def llm_3_run {α : Type u} (outcome : ℕ → Outcome α) : RunTrace α :=
  retryRun 2 outcome

/-- `Llm_2ToolNode.run` (`src/nodes/tools/llm_2/processor.py`):
`max_retries = 3`, `retry_delay = 1.0`. -/
def llm_2_tool_run {α : Type u} (outcome : ℕ → Outcome α) : RunTrace α :=
  retryRun 1 outcome

/-- Python `str.strip()`: the string with leading and trailing
whitespace removed, computed over the character list. -/
def pyStrip (s : String) : String :=
  String.mk (((s.data.dropWhile Char.isWhitespace).reverse.dropWhile
    Char.isWhitespace).reverse)

/-- `BaseNode.validate_input` (`src/base.py`): `return data is not None`. -/
def validate_input {α : Type u} (data : PyValue α) : Bool :=
  match data with
  | PyValue.none => false
  | _ => true

/-- `CustomAgentGraph._validate_graph_input` (`src/graph/main.py`):
`None` is invalid; a string must be non-empty after `strip()` and at
most 50000 characters; a dict must be non-empty (`bool(input_data)`);
a list must be non-empty and have at most 1000 items; every other value
is valid. -/
def validate_graph_input {α : Type u} (input_data : PyValue α) : Bool :=
  match input_data with
  | PyValue.none => false
  | PyValue.str s => decide (0 < (pyStrip s).length) && decide (s.length ≤ 50000)
  | PyValue.dict fields => !fields.isEmpty
  | PyValue.list xs => decide (0 < xs.length) && decide (xs.length ≤ 1000)
  | PyValue.other _ => true

/-- Python `key in d` for a dict represented as an association list;
for a non-dict value this embedding returns `false` (the engine only
asks it of dict results). -/
def hasKey {α : Type u} (v : PyValue α) (key : String) : Bool :=
  match v with
  | PyValue.dict fields => fields.any (fun kv => kv.1 = key)
  | _ => false

/-- `CustomAgentGraph._validate_graph_output`: `None` is invalid; a dict
is valid iff `"results" in result or "messages" in result`; every other
value is valid. -/
def validate_graph_output {α : Type u} (result : PyValue α) : Bool :=
  match result with
  | PyValue.none => false
  | PyValue.dict fields => hasKey (PyValue.dict fields) "results" || hasKey (PyValue.dict fields) "messages"
  | _ => true

/-- What `self.graph.ainvoke(initial_state)` under the 120 s
`asyncio.wait_for` does on a given attempt: returns a result, exceeds
the deadline, or raises some other exception. -/
inductive TraverseOutcome (α : Type u) : Type u where
  | ok (result : PyValue α) : TraverseOutcome α
  | timeout : TraverseOutcome α
  | otherError : TraverseOutcome α

/-- The `try` body of one attempt of `CustomAgentGraph.execute`:
an input failing `_validate_graph_input` raises `ValueError`
(a validation error); otherwise the traversal runs, a timeout or other
exception propagates, and a returned result failing
`_validate_graph_output` raises `ValueError`. -/
def graphAttempt {α : Type u} (input_data : PyValue α)
    (traverse : ℕ → TraverseOutcome α) (a : ℕ) : Outcome (PyValue α) :=
  if validate_graph_input input_data then
    match traverse a with
    | TraverseOutcome.ok result =>
      if validate_graph_output result then Outcome.ok result
      else Outcome.validationError
    | TraverseOutcome.timeout => Outcome.timeout
    | TraverseOutcome.otherError => Outcome.otherError
  else Outcome.validationError

/-- `CustomAgentGraph.execute`: the retry loop with `max_retries = 3`
and `retry_delay = 2.0` around `graphAttempt`. -/
def graph_execute {α : Type u} (input_data : PyValue α)
    (traverse : ℕ → TraverseOutcome α) : RunTrace (PyValue α) :=
  retryRun 2 (graphAttempt input_data traverse)

/-- `CustomAgentGraph._get_next_stage`: always returns `"continue"`
(the conditional logic is an unimplemented TODO). -/
def get_next_stage {α : Type u} (_state : AgentState α) : String :=
  "continue"

/-- The shared body of the six LangGraph wrapper functions of
`src/graph/nodes/nodes.py` (`llm_1_node`, …, `llm_3_tool_node`), which
differ only in the stage name and the capitalized label.  The
`node_instance.run(processing_input)` call (with its preparation of
`processing_input` from the previous stage's result or `str(input)`) is
abstracted by `runRes`: a returned value or the message of a raised
exception; `render` stands for Python `str` on result values.  On
success the wrapper stores the result under the stage name and appends
an `AIMessage`; any exception is caught and recorded via `set_error`
with a message built from the label. -/
def stage_node {α : Type u} (stageName label : String)
    (render : PyValue α → String) (state : AgentState α)
    (runRes : Except String (PyValue α)) : AgentState α :=
  match runRes with
  | Except.ok result =>
    let state := set_stage_result state stageName result
    add_message state (Message.ai (label ++ ": " ++ render result))
  | Except.error e => set_error state (label ++ " node error: " ++ e)

/-- `llm_1_node` of `src/graph/nodes/nodes.py`. -/
def llm_1_node {α : Type u} (render : PyValue α → String)
    (state : AgentState α) (runRes : Except String (PyValue α)) : AgentState α :=
  stage_node "llm_1" "Llm_1" render state runRes

/-- `llm_2_node` of `src/graph/nodes/nodes.py`. -/
def llm_2_node {α : Type u} (render : PyValue α → String)
    (state : AgentState α) (runRes : Except String (PyValue α)) : AgentState α :=
  stage_node "llm_2" "Llm_2" render state runRes

/-- `llm_3_node` of `src/graph/nodes/nodes.py`. -/
def llm_3_node {α : Type u} (render : PyValue α → String)
    (state : AgentState α) (runRes : Except String (PyValue α)) : AgentState α :=
  stage_node "llm_3" "Llm_3" render state runRes

/-- Successor of stage `i` in the graph built by
`CustomAgentGraph._add_pipeline_edges`: `add_edge(stages[i], stages[i+1])`
for `i < len(stages) - 1`, and `add_edge(stages[-1], END)`; `none`
denotes `END`. -/
def pipelineNext (stages : List String) (i : ℕ) : Option ℕ :=
  if i + 1 < stages.length then some (i + 1) else Option.none

/-- Successor of stage `i` in the graph built by
`CustomAgentGraph._add_state_graph_edges`, for a state `state` routed by
`route`: every non-terminal stage `i` carries a conditional edge whose
mapping sends `"continue"` to `stages[i+1]` (or `END` when out of range)
and `"end"` to `END`; the last stage has a plain edge to `END`. -/
def smNext {α : Type u} (stages : List String) (route : AgentState α → String)
    (state : AgentState α) (i : ℕ) : Option ℕ :=
  if i < stages.length - 1 then
    match route state with
    | "continue" => if i + 1 < stages.length then some (i + 1) else Option.none
    | _ => Option.none
  else Option.none

/-- The stages visited by following a successor function from stage
index `i`, with `fuel` bounding the walk length: the current index is
visited, then the walk continues at the successor until `END`. -/
def walk (next : ℕ → Option ℕ) : ℕ → ℕ → List ℕ
  | 0, _ => []
  | fuel + 1, i =>
    i :: (match next i with
      | some j => walk next fuel j
      | Option.none => [])

/-- Result of `UseCaseExecutor._validate_output` and
`UseCaseExecutor._check_behavior`: the `{'passed': ..., 'message': ...}`
dict. -/
structure ValidationResult : Type where
  passed : Bool
  message : String
deriving DecidableEq

/-- The dict branch of `UseCaseExecutor._validate_output`
(`src/scaffold/python/generators/templates/base/utils/use_case_executor.py`):
for each `(key, expected_value)` of `expected_output` in order, a key
missing from `actual_output` fails with `"Missing expected key: <key>"`,
a present key whose value differs fails with the value-mismatch message;
when every expected pair matches, validation passes.  Opaque Python
values are represented by `α` and Python `str` on them by `render`. -/
def validate_output_dict {α : Type u} [DecidableEq α] (render : α → String)
    (actual_output : List (String × α)) :
    List (String × α) → ValidationResult
  | [] => ⟨true, "Output validation passed"⟩
  | (key, expected_value) :: rest =>
    match actual_output.lookup key with
    | Option.none => ⟨false, "Missing expected key: " ++ key⟩
    | some actual_value =>
      if actual_value = expected_value then
        validate_output_dict render actual_output rest
      else
        ⟨false, "Value mismatch for key " ++ "'" ++ key ++ "'" ++ ": expected "
          ++ render expected_value ++ ", got " ++ render actual_value⟩

/-- The status recorded by `UseCaseExecutor.execute_use_case` after a
successful agent call: it starts `'success'`, becomes
`'validation_failed'` when an `expected_output` was given and its
validation did not pass, then `'behavior_failed'` when an
`expected_behavior` was given and its check did not pass. -/
def use_case_status (validation behavior : Option ValidationResult) : String :=
  let status := "success"
  let status := match validation with
    | some v => if v.passed then status else "validation_failed"
    | Option.none => status
  match behavior with
  | some b => if b.passed then status else "behavior_failed"
  | Option.none => status

/-- One entry of `UseCaseExecutor.results`, restricted to the fields
`generate_report` reads. -/
structure UseCaseResult : Type where
  status : String
  execution_time_seconds : ℚ
deriving DecidableEq

/-- The `summary` dict of the report built by
`UseCaseExecutor.generate_report`. -/
structure ReportSummary : Type where
  total_cases : ℕ
  successful : ℕ
  validation_failed : ℕ
  behavior_failed : ℕ
  errors : ℕ
  success_rate : ℚ
  average_execution_time_seconds : ℚ
deriving DecidableEq

/-- The value returned by `UseCaseExecutor.generate_report`: either the
`{'message': 'No results to report'}` dict or the full report carrying a
`summary`. -/
inductive Report : Type where
  | message (msg : String) : Report
  | report (summary : ReportSummary) : Report
deriving DecidableEq

/-- `UseCaseExecutor.generate_report`: with no results it returns the
`{'message': 'No results to report'}` dict; otherwise it counts the
statuses and computes `success_rate = (successful / total_cases) * 100`
and the average execution time over `total_cases`.  (Python's `round`
to two decimals is omitted; the claims checked here do not inspect the
rounded digits.) -/
def generate_report (results : List UseCaseResult) : Report :=
  if results.isEmpty then Report.message "No results to report"
  else
    let total_cases := results.length
    let successful_cases := (results.filter (fun r => r.status = "success")).length
    let validation_failed := (results.filter (fun r => r.status = "validation_failed")).length
    let behavior_failed := (results.filter (fun r => r.status = "behavior_failed")).length
    let error_cases := (results.filter (fun r => r.status = "error")).length
    let avg_execution_time :=
      (results.map (fun r => r.execution_time_seconds)).sum / (total_cases : ℚ)
    Report.report
      { total_cases := total_cases
        successful := successful_cases
        validation_failed := validation_failed
        behavior_failed := behavior_failed
        errors := error_cases
        success_rate := ((successful_cases : ℚ) / (total_cases : ℚ)) * 100
        average_execution_time_seconds := avg_execution_time }

/-- A concrete initial agent state over the trivial payload type, used
to evaluate the theorems below on concrete inputs. -/
def emptyAgentState : AgentState Unit where
  input := PyValue.str "x"
  messages := []
  context := fun _ => Option.none
  results := fun _ => Option.none
  current_stage := Option.none
  error := Option.none
  metadata := fun _ => Option.none

/-- A concrete attempt-outcome function: the compute call raises a
non-validation error on the first two attempts and returns `7` on the
third. -/
def failTwiceOutcome : ℕ → Outcome ℕ
  | 0 => Outcome.otherError
  | 1 => Outcome.otherError
  | _ => Outcome.ok 7

/-- Each loop iteration accounts for exactly one attempt, so a retry
loop with `fuel` remaining iterations makes at most `fuel` attempts. -/
theorem retryAux_attempts_le {α : Type u} (base : ℚ) (mr : ℕ)
    (outcome : ℕ → Outcome α) :
    ∀ fuel a, (retryAux base mr outcome a fuel).attempts ≤ fuel
  | 0, _ => Nat.le_refl 0
  | fuel + 1, a => by
    simp only [retryAux]
    cases outcome a with
    | ok v => exact Nat.le_add_left 1 fuel
    | validationError => exact Nat.le_add_left 1 fuel
    | timeout =>
      by_cases hmr : a = mr - 1
      · simp only [if_pos hmr]
        exact Nat.le_add_left 1 fuel
      · simp only [if_neg hmr]
        exact Nat.succ_le_succ (retryAux_attempts_le base mr outcome fuel (a + 1))
    | otherError =>
      by_cases hmr : a = mr - 1
      · simp only [if_pos hmr]
        exact Nat.le_add_left 1 fuel
      · simp only [if_neg hmr]
        exact Nat.succ_le_succ (retryAux_attempts_le base mr outcome fuel (a + 1))

/-- Walking pointwise-equal successor functions visits the same stages. -/
theorem walk_congr (f g : ℕ → Option ℕ) (h : ∀ i, f i = g i) :
    ∀ fuel i, walk f fuel i = walk g fuel i
  | 0, _ => rfl
  | fuel + 1, i => by
    simp only [walk, h i]
    cases g i with
    | none => rfl
    | some j =>
      show i :: walk f fuel j = i :: walk g fuel j
      rw [walk_congr f g h fuel j]

/-- Walking the pipeline successor function from stage `k` with the
remaining `m = length - k` stages as fuel visits `k, k+1, …, length-1`. -/
theorem walk_pipelineNext (stages : List String) :
    ∀ m k, k + m = stages.length →
      walk (pipelineNext stages) m k = List.range' k m
  | 0, _, _ => rfl
  | m + 1, k, hk => by
    simp only [walk, pipelineNext, List.range'_succ]
    by_cases h1 : k + 1 < stages.length
    · simp only [if_pos h1]
      rw [walk_pipelineNext stages m (k + 1) (by omega)]
    · have hm : m = 0 := by omega
      subst hm
      simp [if_neg h1]

/-- Mapping `getD` over `range l.length` recovers the list. -/
theorem map_getD_range {β : Type u} (d : β) :
    ∀ l : List β, (List.range l.length).map (fun i => l.getD i d) = l
  | [] => rfl
  | x :: xs => by
    rw [List.length_cons, List.range_succ_eq_map, List.map_cons, List.map_map]
    have : ((fun i => (x :: xs).getD i d) ∘ Nat.succ) = fun i => xs.getD i d := by
      funext i
      simp [List.getD_cons_succ]
    rw [this]
    simp only [List.getD_cons_zero]
    rw [map_getD_range d xs]

/-- C2 counterexample: (1) the claim asserts the
`"_session_<session_id>"` suffix for every `session_id`, but
`get_thread_config` appends it only for a truthy (non-empty) session
id: with `session_id = ""` the code returns `"user_alice"`, not
`"user_alice_session_"`; (2) the claim's example
`versioned_thread_id("alice","v2","s1") = "user_alice_session_s1_v2"`
is false: the code computes `f"{base}_v{version}"`, which for
`version = "v2"` yields `"user_alice_session_s1_vv2"`. -/
theorem thread_config_counterexample :
    (get_thread_config "alice" (some "") = ⟨⟨"user_alice"⟩⟩
      ∧ "user_alice" ≠ "user_" ++ "alice" ++ "_session_" ++ "")
    ∧ (get_versioned_thread_config "alice" "v2" (some "s1") =
        ⟨⟨"user_alice_session_s1_vv2"⟩⟩
      ∧ "user_alice_session_s1_vv2" ≠ "user_alice_session_s1_v2") := by
  exact ⟨⟨rfl, by decide⟩, ⟨by decide, by decide⟩⟩

/-- C2 (amended): `thread_id(user_id) = "user_<user_id>"`; for every
non-empty `session_id`, `thread_id(user_id, session_id) =
"user_<user_id>_session_<session_id>"`; `versioned_thread_id` appends
the trailing `"_v<version>"` to the base id computed by `thread_id`;
`versioned_thread_id("alice","v2","s1") = "user_alice_session_s1_vv2"`
(the `"_v"` marker precedes the version string, here itself `"v2"`);
each call returns the id wrapped as
`{"configurable": {"thread_id": ...}}` (the `ThreadConfig` shape). -/
theorem thread_config_ids (user_id version : String) :
    get_thread_config user_id Option.none = ⟨⟨"user_" ++ user_id⟩⟩
    ∧ (∀ session_id : String, session_id ≠ "" →
        get_thread_config user_id (some session_id) =
          ⟨⟨"user_" ++ user_id ++ "_session_" ++ session_id⟩⟩)
    ∧ (∀ session_id : Option String,
        get_versioned_thread_config user_id version session_id =
          ⟨⟨(get_thread_config user_id session_id).configurable.thread_id
              ++ "_v" ++ version⟩⟩)
    ∧ get_versioned_thread_config "alice" "v2" (some "s1") =
        ⟨⟨"user_alice_session_s1_vv2"⟩⟩ := by
  refine ⟨rfl, ?_, ?_, by decide⟩
  · intro session_id hs
    simp [get_thread_config, hs]
  · intro session_id
    cases session_id with
    | none => rfl
    | some s =>
      by_cases hs : s = "" <;>
        simp [get_thread_config, get_versioned_thread_config, hs]

/-- C2 witness: the amended theorem evaluated at
`user_id = "alice"`, `session_id = "s1"`. -/
theorem thread_config_ids_witness :
    get_thread_config "alice" (some "s1") =
      ⟨⟨"user_" ++ "alice" ++ "_session_" ++ "s1"⟩⟩ :=
  (thread_config_ids "alice" "v2").2.1 "s1" (by decide)

/-- C4: `set_stage_result` (under the precondition that the stage is
declared) maps the stage to the value in `results` and leaves `input`,
`messages`, `context`, `current_stage`, `error` and `metadata`
unchanged (and every other stage's entry unchanged); `add_message`
appends the message at the end of `messages` and changes nothing else;
`set_error` and `clear_error` change only the `error` field and leave
`results` unchanged. -/
theorem state_update_ops {α : Type u} (stages : List String)
    (state : AgentState α) (stage : String) (value : PyValue α)
    (msg : Message) (emsg : String) (_hdecl : stage ∈ stages) :
    ((set_stage_result state stage value).results stage = some value
      ∧ (∀ s, s ≠ stage →
          (set_stage_result state stage value).results s = state.results s)
      ∧ (set_stage_result state stage value).input = state.input
      ∧ (set_stage_result state stage value).messages = state.messages
      ∧ (set_stage_result state stage value).context = state.context
      ∧ (set_stage_result state stage value).current_stage = state.current_stage
      ∧ (set_stage_result state stage value).error = state.error
      ∧ (set_stage_result state stage value).metadata = state.metadata)
    ∧ ((add_message state msg).messages = state.messages ++ [msg]
      ∧ (add_message state msg).input = state.input
      ∧ (add_message state msg).context = state.context
      ∧ (add_message state msg).results = state.results
      ∧ (add_message state msg).current_stage = state.current_stage
      ∧ (add_message state msg).error = state.error
      ∧ (add_message state msg).metadata = state.metadata)
    ∧ ((set_error state emsg).error = some emsg
      ∧ (set_error state emsg).results = state.results)
    ∧ ((clear_error state).error = Option.none
      ∧ (clear_error state).results = state.results) := by
  refine ⟨⟨?_, ?_, rfl, rfl, rfl, rfl, rfl, rfl⟩,
    ⟨rfl, rfl, rfl, rfl, rfl, rfl, rfl⟩, ⟨rfl, rfl⟩, ⟨rfl, rfl⟩⟩
  · simp [set_stage_result]
  · intro s hs
    simp [set_stage_result, hs]

/-- C4 witness: the state operations evaluated on a concrete state,
stage and value, with the declared-stage precondition discharged. -/
theorem state_update_ops_witness :
    (set_stage_result emptyAgentState "a" (PyValue.str "v")).results "a"
      = some (PyValue.str "v") :=
  (state_update_ops ["a"] emptyAgentState "a" (PyValue.str "v")
    (Message.ai "m") "err" (by decide)).1.1

/-- C9: `_validate_graph_input` accepts every non-null value that is
not a string, dict or list (numbers, objects, …) unconditionally — no
shape or size bound applies outside the three listed types. -/
theorem validate_graph_input_other_values {α : Type u} (a : α) :
    validate_graph_input (PyValue.other a) = true := rfl

/-- C10: `generate_report` returns the
`{'message': 'No results to report'}` dict for an empty results list,
and for every non-empty list it returns a summary whose `total_cases`
is the list length, so the `success_rate` and
`average_execution_time_seconds` divisions are only evaluated with
`total_cases ≥ 1`. -/
theorem generate_report_empty_guard :
    generate_report [] = Report.message "No results to report"
    ∧ (∀ results : List UseCaseResult, results ≠ [] →
        ∃ s : ReportSummary, generate_report results = Report.report s
          ∧ s.total_cases = results.length ∧ 1 ≤ s.total_cases) := by
  constructor
  · rfl
  · intro results h
    cases results with
    | nil => exact absurd rfl h
    | cons r rest =>
      exact ⟨_, rfl, rfl, Nat.succ_le_succ (Nat.zero_le _)⟩

/-- C10 witness: the report of a singleton results list is a summary
with one total case. -/
theorem generate_report_empty_guard_witness :
    ∃ s : ReportSummary,
      generate_report [⟨"success", 1⟩] = Report.report s
        ∧ s.total_cases = [(⟨"success", 1⟩ : UseCaseResult)].length
        ∧ 1 ≤ s.total_cases :=
  generate_report_empty_guard.2 [⟨"success", 1⟩] (List.cons_ne_nil _ _)

/-- C5: when the wrapped node's `run` raises, the LangGraph wrapper
function catches the exception and returns the incoming state with
`error` set to `"<label> node error: <exception>"` (a message naming
the stage via its label) while `results` and `messages` are untouched,
instead of propagating; the default routing function
`_get_next_stage` returns `"continue"` for every state, and under it
the conditional edge of every non-terminal stage resolves to the next
declared stage, so downstream stages still execute after a failed
stage. -/
theorem node_error_capture {α : Type u} (render : PyValue α → String)
    (state : AgentState α) (e : String) :
    (∀ stageName label : String,
      (stage_node stageName label render state (Except.error e)).error
          = some (label ++ " node error: " ++ e)
        ∧ (stage_node stageName label render state (Except.error e)).results
          = state.results
        ∧ (stage_node stageName label render state (Except.error e)).messages
          = state.messages)
    ∧ (llm_1_node render state (Except.error e)).error
        = some ("Llm_1 node error: " ++ e)
    ∧ (∀ st : AgentState α, get_next_stage st = "continue")
    ∧ (∀ (stages : List String) (st : AgentState α) (i : ℕ),
        i + 1 < stages.length →
          smNext stages get_next_stage st i = some (i + 1)) := by
  refine ⟨fun stageName label => ⟨rfl, rfl, rfl⟩, rfl, fun _ => rfl, ?_⟩
  intro stages st i h
  have h1 : i < stages.length - 1 := by omega
  simp [smNext, get_next_stage, h1, h]

/-- C5 witness: the wrapper evaluated on a concrete failing run and the
conditional edge of stage 0 of a concrete two-stage graph. -/
theorem node_error_capture_witness :
    (llm_1_node (fun _ => "") emptyAgentState (Except.error "boom")).error
        = some ("Llm_1 node error: " ++ "boom")
    ∧ smNext ["a", "b"] get_next_stage emptyAgentState 0 = some 1 := by
  have h := node_error_capture (fun _ : PyValue Unit => "") emptyAgentState "boom"
  exact ⟨h.2.1, h.2.2.2 ["a", "b"] emptyAgentState 0 (by decide)⟩

/-- C3 counterexample: the claim says an empty-string input fails the
node-level input validation, but `BaseNode.validate_input` only checks
`data is not None`, so the empty string passes it. -/
theorem validate_input_empty_string_counterexample :
    validate_input (PyValue.str "" : PyValue Unit) = true := rfl

/-- C3 (amended): node-level `validate_input` only requires the input
to be non-null, so an empty string passes it; the empty-string
short-circuit holds at graph level: `_validate_graph_input` rejects the
empty string, and `execute` with an empty-string input fails on its
first attempt as a terminal validation error (`GraphExecutionError`)
with zero backoff delays and no retry, whatever the traversal would
have done. -/
theorem validation_short_circuit {α : Type u} :
    (∀ data : PyValue α, validate_input data = true ↔ data ≠ PyValue.none)
    ∧ validate_graph_input (PyValue.str "" : PyValue α) = false
    ∧ (∀ traverse : ℕ → TraverseOutcome α,
        graph_execute (PyValue.str "") traverse =
          ⟨1, [], Except.error FailKind.validation⟩) := by
  have hin : validate_graph_input (PyValue.str "" : PyValue α) = false := by
    simp [validate_graph_input, pyStrip]
  refine ⟨?_, hin, ?_⟩
  · intro data
    cases data <;> simp [validate_input]
  · intro traverse
    simp [graph_execute, retryRun, retryAux, graphAttempt, hin]

/-- C1: for every retry loop instance (any `base` delay covers both the
node-level `run` and the graph-level `execute`, which share the loop
with `max_retries = 3`): at most 3 attempts are made; a validation
error terminates the loop immediately with no further attempt and no
delay; after a timeout on attempt `a < 2` the recorded delay before the
next attempt is `base * (a + 1)`; after any other runtime error on
attempt `a < 2` the delay is `base * 2 ^ a`; and an outcome function
that raises a non-validation error on exactly the first
`max_retries - 1 = 2` attempts and then succeeds yields the successful
result with exactly the two backoff delays of the exponential
formula. -/
theorem retry_policy {α : Type u} (base : ℚ) (outcome : ℕ → Outcome α) :
    (retryRun base outcome).attempts ≤ 3
    ∧ (∀ a fuel, outcome a = Outcome.validationError →
        retryAux base 3 outcome a (fuel + 1) =
          ⟨1, [], Except.error FailKind.validation⟩)
    ∧ (∀ a, a < 2 → outcome a = Outcome.timeout →
        (retryAux base 3 outcome a (3 - a)).delays.head? =
          some (base * ((a : ℚ) + 1)))
    ∧ (∀ a, a < 2 → outcome a = Outcome.otherError →
        (retryAux base 3 outcome a (3 - a)).delays.head? =
          some (base * 2 ^ a))
    ∧ (∀ v : α, outcome 0 = Outcome.otherError →
        outcome 1 = Outcome.otherError → outcome 2 = Outcome.ok v →
        retryRun base outcome =
          ⟨3, [base * 2 ^ 0, base * 2 ^ 1], Except.ok v⟩) := by
  refine ⟨retryAux_attempts_le base 3 outcome 3 0, ?_, ?_, ?_, ?_⟩
  · intro a fuel h
    simp [retryAux, h]
  · intro a ha h
    interval_cases a <;> simp [retryAux, h]
  · intro a ha h
    interval_cases a <;> simp [retryAux, h]
  · intro v h0 h1 h2
    simp [retryRun, retryAux, h0, h1, h2]

/-- C1 witness: the retry loop with `base = 2` (the LLM node and graph
setting) on an outcome function failing twice with a generic error and
then succeeding: three attempts, delays `[2 * 2 ^ 0, 2 * 2 ^ 1]`, and
the successful result. -/
theorem retry_policy_witness :
    retryRun 2 failTwiceOutcome =
      ⟨3, [2 * 2 ^ 0, 2 * 2 ^ 1], Except.ok 7⟩ :=
  (retry_policy 2 failTwiceOutcome).2.2.2.2 7 rfl rfl rfl

/-- C7 counterexample: the claim says `execute`'s output validation
accepts a result only if it contains one of the keys `"results"` or
`"messages"`, but `_validate_graph_output` accepts every non-null
non-dict value unconditionally: the string result `"x"` is accepted
yet contains neither key. -/
theorem validate_graph_output_counterexample :
    validate_graph_output (PyValue.str "x" : PyValue Unit) = true
    ∧ hasKey (PyValue.str "x" : PyValue Unit) "results" = false
    ∧ hasKey (PyValue.str "x" : PyValue Unit) "messages" = false :=
  ⟨rfl, rfl, rfl⟩

/-- C7 (amended): `_validate_graph_output` rejects a null result;
a dict result is accepted iff it contains at least one of the keys
`"results"` or `"messages"`; a non-null non-dict result is accepted
unconditionally; and a traversal result failing this validation makes
`execute` raise `GraphExecutionError` immediately on that attempt, with
no retry of the traversal. -/
theorem graph_output_validation {α : Type u} (fields : List (String × PyValue α)) :
    validate_graph_output (PyValue.none : PyValue α) = false
    ∧ validate_graph_output (PyValue.dict fields) =
        (hasKey (PyValue.dict fields) "results"
          || hasKey (PyValue.dict fields) "messages")
    ∧ (∀ (input_data : PyValue α) (traverse : ℕ → TraverseOutcome α)
          (result : PyValue α),
        validate_graph_input input_data = true →
        traverse 0 = TraverseOutcome.ok result →
        validate_graph_output result = false →
        graph_execute input_data traverse =
          ⟨1, [], Except.error FailKind.validation⟩) := by
  refine ⟨rfl, rfl, ?_⟩
  intro input_data traverse result hin ht hout
  simp [graph_execute, retryRun, retryAux, graphAttempt, hin, ht, hout]

/-- C7 witness: a valid string input whose traversal returns `None`,
which fails output validation: one attempt, no delays, terminal
validation error. -/
theorem graph_output_validation_witness :
    graph_execute (PyValue.str "hi" : PyValue Unit)
        (fun _ => TraverseOutcome.ok PyValue.none) =
      ⟨1, [], Except.error FailKind.validation⟩ :=
  (graph_output_validation ([] : List (String × PyValue Unit))).2.2
    (PyValue.str "hi") (fun _ => TraverseOutcome.ok PyValue.none)
    PyValue.none (by decide) rfl rfl

/-- C8: expecting the dict `{"status": x}` against an actual output
mapping `"status"` to `y ≠ x` fails validation with the value-mismatch
message naming the key `"status"`, and the execution result's status is
`"validation_failed"`; in general the dict validation passes iff every
expected key is present in the actual output with an equal value. -/
theorem use_case_dict_validation {α : Type u} [DecidableEq α]
    (render : α → String) (x y : α) (hxy : x ≠ y) :
    (validate_output_dict render [("status", y)] [("status", x)]).passed = false
    ∧ (validate_output_dict render [("status", y)] [("status", x)]).message =
        "Value mismatch for key " ++ "'" ++ "status" ++ "'" ++ ": expected "
          ++ render x ++ ", got " ++ render y
    ∧ use_case_status
        (some (validate_output_dict render [("status", y)] [("status", x)]))
        Option.none = "validation_failed"
    ∧ (∀ actual_output expected_output : List (String × α),
        (validate_output_dict render actual_output expected_output).passed = true
          ↔ ∀ p ∈ expected_output, actual_output.lookup p.1 = some p.2) := by
  have hyx : ¬ (y = x) := fun h => hxy h.symm
  have hv : validate_output_dict render [("status", y)] [("status", x)] =
      ⟨false, "Value mismatch for key " ++ "'" ++ "status" ++ "'" ++ ": expected "
        ++ render x ++ ", got " ++ render y⟩ := by
    simp [validate_output_dict, List.lookup, hyx]
  refine ⟨by rw [hv], by rw [hv], by rw [hv]; rfl, ?_⟩
  intro actual_output expected_output
  induction expected_output with
  | nil => simp [validate_output_dict]
  | cons p rest ih =>
    obtain ⟨k, ev⟩ := p
    cases hl : actual_output.lookup k with
    | none => simp [validate_output_dict, hl]
    | some av =>
      by_cases hav : av = ev
      · subst hav
        simp [validate_output_dict, hl, ih]
      · simp [validate_output_dict, hl, hav]

/-- C8 witness: the concrete batch expecting `{"status": "x"}` against
actual output `{"status": "y"}`. -/
theorem use_case_dict_validation_witness :
    (validate_output_dict id [("status", "y")] [("status", "x")]).passed = false :=
  (use_case_dict_validation id "x" "y" (by decide)).1

/-- C6: for every non-empty stage list, the STATE_MACHINE build
(`_add_state_graph_edges`: conditional edges evaluated by the routing
function) with the default routing function `_get_next_stage` is
behaviourally equivalent to the PIPELINE build (`_add_pipeline_edges`):
starting at the entry stage, both walks follow the same successors, and
the visited stages are exactly the declared stages in declared order,
with no stage skipped. -/
theorem state_machine_pipeline_equiv {α : Type u} (stages : List String)
    (state : AgentState α) (_hne : stages ≠ []) :
    walk (smNext stages get_next_stage state) stages.length 0 =
      walk (pipelineNext stages) stages.length 0
    ∧ (walk (smNext stages get_next_stage state) stages.length 0).map
        (fun i => stages.getD i "") = stages := by
  have hnext : ∀ i, smNext stages get_next_stage state i = pipelineNext stages i := by
    intro i
    simp only [smNext, pipelineNext, get_next_stage]
    by_cases h1 : i < stages.length - 1
    · have h2 : i + 1 < stages.length := by omega
      simp [h1, h2]
    · have h2 : ¬ (i + 1 < stages.length) := by omega
      simp [h1, h2]
  have hcongr := walk_congr _ _ hnext stages.length 0
  have hpipe : walk (pipelineNext stages) stages.length 0 =
      List.range stages.length := by
    rw [walk_pipelineNext stages stages.length 0 (Nat.zero_add _)]
    exact (List.range_eq_range' _).symm
  refine ⟨hcongr, ?_⟩
  rw [hcongr, hpipe, map_getD_range]

/-- C6 witness: the two builds walked on a concrete three-stage graph
from a concrete state. -/
theorem state_machine_pipeline_equiv_witness :
    walk (smNext ["a", "b", "c"] get_next_stage emptyAgentState) 3 0 =
      walk (pipelineNext ["a", "b", "c"]) 3 0 :=
  (state_machine_pipeline_equiv ["a", "b", "c"] emptyAgentState
    (List.cons_ne_nil _ _)).1
